import Mathlib

/-!
Shallow embedding of the Health-Coach conversational state machine
(src/app.py together with src/sheets.py and src/vision.py).

The Streamlit session record is modelled as an explicit `SessionState`
value; each UI handler of app.py becomes a function from the current
record (plus the outcomes of the external adapter calls it makes, passed
in as explicit `Except` values) to the new record together with its
observable side effects (reported errors, generator invocations,
appended spreadsheet rows).  Python exceptions raised by adapters are
the `.error` branch of `Except`; `st.rerun()` is a control transfer with
no state effect and is dropped.
-/

namespace HealthCoach

/-! ### Characters used by the text-cleanup pipeline of app.py -/

/-- ASCII apostrophe, the character removed by `clean_for_js` and by the
per-call-site `replaceordrop` of generator output. -/
def aposC : Char := Char.ofNat 39

/-- Backslash. -/
def bsC : Char := Char.ofNat 92

/-- Newline. -/
def nlC : Char := Char.ofNat 10

/-- Space. -/
def spC : Char := Char.ofNat 32

/-- Horizontal tab. -/
def tabC : Char := Char.ofNat 9

/-- Carriage return. -/
def crC : Char := Char.ofNat 13

/-- Vertical tab. -/
def vtC : Char := Char.ofNat 11

/-- Form feed. -/
def ffC : Char := Char.ofNat 12

/-- Hash mark, the Markdown heading character stripped by `clean_for_js`. -/
def hashC : Char := Char.ofNat 35

/-- Asterisk. -/
def starC : Char := Char.ofNat 42

/-- Vertical bar. -/
def barC : Char := Char.ofNat 124

/-- Underscore. -/
def underC : Char := Char.ofNat 95

/-! ### clean_for_js (app.py lines 43-59) and the call-site apostrophe strip -/

/-- Step 1 of `clean_for_js`: `text.replace` of the apostrophe with the
empty string, i.e. deletion of every apostrophe. -/
def removeApostrophes (l : List Char) : List Char :=
  l.filter (fun c => c != aposC)

/-- Step 2 of `clean_for_js`: each backslash is replaced by two backslashes. -/
def escapeBackslashes (l : List Char) : List Char :=
  l.flatMap (fun c => if c = bsC then [bsC, bsC] else [c])

/-- Step 3 of `clean_for_js`: each newline becomes a space. -/
def newlinesToSpaces (l : List Char) : List Char :=
  l.map (fun c => if c = nlC then spC else c)

/-- Python regex whitespace class (ASCII part), used by the pattern of
step 4 of `clean_for_js`. -/
def isPyWs (c : Char) : Bool :=
  c = spC || c = tabC || c = nlC || c = crC || c = vtC || c = ffC

/-- Drop a run of leading hash marks (the greedy part of the regex). -/
def dropHashes (l : List Char) : List Char :=
  l.dropWhile (fun c => c = hashC)

theorem length_dropHashes_le (l : List Char) : (dropHashes l).length ≤ l.length := by
  induction l with
  | nil => simp [dropHashes]
  | cons c rest ih =>
      simp only [dropHashes, List.dropWhile_cons]
      split
      · exact Nat.le_trans ih (Nat.le_succ _)
      · simp

theorem dropHashes_subset (l : List Char) : dropHashes l ⊆ l := by
  induction l with
  | nil => simp [dropHashes]
  | cons c rest ih =>
      simp only [dropHashes, List.dropWhile_cons]
      split
      · exact List.Subset.trans ih (List.subset_cons_self c rest)
      · exact fun x hx => hx

/-- Drop at most one leading whitespace character (the optional part of
the regex). -/
def dropOptWs : List Char → List Char
  | [] => []
  | c :: rest => if isPyWs c then rest else c :: rest

theorem dropOptWs_length_le (l : List Char) : (dropOptWs l).length ≤ l.length := by
  cases l with
  | nil => simp [dropOptWs]
  | cons c rest =>
      simp only [dropOptWs]
      split
      · simp [List.length_cons, Nat.le_succ]
      · simp

theorem dropOptWs_subset (l : List Char) : dropOptWs l ⊆ l := by
  cases l with
  | nil => simp [dropOptWs]
  | cons c rest =>
      simp only [dropOptWs]
      split
      · exact List.subset_cons_self c rest
      · exact fun x hx => hx

/-- Step 4 of `clean_for_js`: left-to-right deletion of every match of
the regex consisting of a run of hash marks followed by an optional
whitespace character. -/
def stripHashRuns : List Char → List Char
  | [] => []
  | c :: rest =>
      if c = hashC then stripHashRuns (dropOptWs (dropHashes rest))
      else c :: stripHashRuns rest
termination_by l => l.length
decreasing_by
  · simp only [List.length_cons]
    have h1 : (dropOptWs (dropHashes rest)).length ≤ (dropHashes rest).length :=
      dropOptWs_length_le _
    have h2 : (dropHashes rest).length ≤ rest.length := length_dropHashes_le rest
    omega
  · simp only [List.length_cons]
    omega

/-- Step 5 of `clean_for_js`: deletion of asterisks, vertical bars and
underscores (the character class of the second regex). -/
def stripFormatChars (l : List Char) : List Char :=
  l.filter (fun c => !(c = starC || c = barC || c = underC))

/-- app.py `clean_for_js`: sanitizes generator output for display and
speech synthesis, removing every apostrophe first. -/
def clean_for_js (s : String) : String :=
  ⟨stripFormatChars (stripHashRuns (newlinesToSpaces (escapeBackslashes (removeApostrophes s.data))))⟩

/-- The per-call-site strip of generator output
(`assessment.replace` in `run_image_analysis`, `response.replace` in
`get_carb_check_response` and `analyze_initial_log`). -/
def stripApos (s : String) : String :=
  ⟨removeApostrophes s.data⟩

theorem aposC_not_mem_removeApostrophes (l : List Char) :
    aposC ∉ removeApostrophes l := by
  simp [removeApostrophes, List.mem_filter]

theorem aposC_not_mem_escapeBackslashes {l : List Char} (h : aposC ∉ l) :
    aposC ∉ escapeBackslashes l := by
  intro hmem
  rcases List.mem_flatMap.mp hmem with ⟨c, hc, hin⟩
  by_cases hb : c = bsC
  · simp only [hb, if_pos rfl] at hin
    have : aposC = bsC := by
      rcases List.mem_cons.mp hin with h1 | h1
      · exact h1
      · simpa using h1
    exact absurd this (by decide)
  · simp only [if_neg hb] at hin
    have : aposC = c := by simpa using hin
    exact h (this ▸ hc)

theorem aposC_not_mem_newlinesToSpaces {l : List Char} (h : aposC ∉ l) :
    aposC ∉ newlinesToSpaces l := by
  intro hmem
  rcases List.mem_map.mp hmem with ⟨c, hc, heq⟩
  by_cases hn : c = nlC
  · rw [hn, if_pos rfl] at heq
    exact absurd heq.symm (by decide)
  · rw [if_neg hn] at heq
    exact h (heq ▸ hc)

theorem stripHashRuns_subset (l : List Char) : stripHashRuns l ⊆ l := by
  induction l using stripHashRuns.induct with
  | case1 => simp [stripHashRuns]
  | case2 rest ih =>
      rw [stripHashRuns, if_pos rfl]
      exact fun x hx =>
        List.mem_cons_of_mem hashC (dropHashes_subset rest (dropOptWs_subset _ (ih hx)))
  | case3 c rest hc ih =>
      rw [stripHashRuns, if_neg hc]
      intro x hx
      rcases List.mem_cons.mp hx with h1 | h1
      · exact h1 ▸ List.mem_cons_self c rest
      · exact List.mem_cons_of_mem c (ih h1)

theorem stripFormatChars_subset (l : List Char) : stripFormatChars l ⊆ l := by
  intro x hx
  exact (List.mem_filter.mp hx).1

/-! ### Session record (app.py lines 26-38) -/

/-- The Streamlit session record of app.py: one field per
`st.session_state` key set up in lines 27-38. -/
structure SessionState where
  conversation_stage : String
  transcription_text : String
  photo_analysis_complete : Bool
  detailed_log : String
  carb_response : String
  detailed_assessment_text : String
  deriving Repr, DecidableEq

/-- The record created on first visit (all defaults of lines 27-38). -/
def initState : SessionState :=
  { conversation_stage := "start"
    transcription_text := ""
    photo_analysis_complete := false
    detailed_log := ""
    carb_response := ""
    detailed_assessment_text := "" }

/-- Python exception raised by an adapter call.  The handlers of app.py
dispatch on whether the message contains the Unrecognized file format
marker, so that case is its own constructor. -/
inductive PyErr where
  | unrecognizedFormat
  | other (msg : String)
  deriving Repr, DecidableEq

/-! ### vision.py analyze_meal_photo (lines 24-72) -/

/-- Outcome of the external work inside vision.analyze_meal_photo:
image encoding failure, HTTP error, any other exception, or a model
reply. -/
inductive VisionOutcome where
  | encodeFailed
  | httpError
  | otherError
  | reply (content : String)
  deriving Repr, DecidableEq

/-- vision.py analyze_meal_photo: every path returns a string; each
failure path returns its fixed error marker string. -/
def analyze_meal_photo : VisionOutcome → String
  | .encodeFailed => "Error: Could not process image."
  | .httpError => "Error analyzing meal. Check your API key or permissions."
  | .otherError => "An unknown error occurred during analysis."
  | .reply content => content

/-! ### Generator wrappers of app.py -/

/-- app.py analyze_initial_log (lines 199-221): the chat-completion
outcome for the initial-log prompt is `modelOut`; on success the output
has its apostrophes stripped (line 221). -/
def analyze_initial_log (modelOut : Except PyErr String) : Except PyErr String :=
  match modelOut with
  | .error e => .error e
  | .ok response => .ok (stripApos response)

/-- app.py get_carb_check_response (lines 164-196): the chat-completion
outcome for the final-synthesis prompt is `modelOut`; on success the
output has its apostrophes stripped (line 196). -/
def get_carb_check_response (modelOut : Except PyErr String) : Except PyErr String :=
  match modelOut with
  | .error e => .error e
  | .ok response => .ok (stripApos response)

/-- app.py get_carb_check_response prompt material (lines 168-172): the
accumulated log combined with the carb answer. -/
def full_log_text (s : SessionState) (carb_answer : String) : String :=
  "INITIAL LOG: " ++ s.transcription_text ++ "\nPHOTO ANALYSIS RESULT: " ++
    s.detailed_log ++ "\nCARB CHECK RESPONSE: " ++ carb_answer

/-! ### Stage transition handlers of app.py -/

/-- Observable outcome of handle_transcription_and_state: the new
record, the error reported via st.error (if any), and the list of
transcripts passed to the text generator. -/
structure HandleResult where
  state : SessionState
  reported : Option PyErr
  generatorCalls : List String
  deriving Repr, DecidableEq

/-- app.py handle_transcription_and_state (lines 252-288).
`transcribeRes` is the outcome of the Whisper call, `gen` the outcome of
the chat-completion call inside analyze_initial_log as a function of the
transcript.  The Python statement order is kept: the transcript is
stored into the record (line 272) before analyze_initial_log is invoked
(line 275), and an exception jumps to the except block (283-288) leaving
every assignment already made in place. -/
def handle_transcription_and_state (s : SessionState)
    (transcribeRes : Except PyErr String)
    (gen : String → Except PyErr String) : HandleResult :=
  match transcribeRes with
  | .error e => { state := s, reported := some e, generatorCalls := [] }
  | .ok transcript =>
      let s1 := { s with transcription_text := transcript }
      match analyze_initial_log (gen transcript) with
      | .error e =>
          { state := s1, reported := some e, generatorCalls := [transcript] }
      | .ok initial_response =>
          { state := { s1 with detailed_log := initial_response
                               conversation_stage := "photo_check" }
            reported := none
            generatorCalls := [transcript] }

/-- app.py photo_check audio-detail path (main_layout lines 343-358):
transcribe_new_audio returns the transcript or None with an error
reported (lines 224-249); the Python truthiness test `if new_transcript`
skips both None and the empty string; on a non-empty transcript the
detail is appended to transcription_text and the stage advances. -/
def photoCheckAudioDetail (s : SessionState)
    (transcribeRes : Except PyErr String) : SessionState × Option PyErr :=
  match transcribeRes with
  | .error e => (s, some e)
  | .ok t =>
      if t = "" then (s, none)
      else
        ({ s with transcription_text := s.transcription_text ++ " | USER DETAIL: " ++ t
                  conversation_stage := "carb_check_ask" }, none)

/-- app.py carb_check_ask question text (main_layout line 367), a string
literal. -/
def carb_check_prompt : String :=
  "This is really good stuff. I can see you are sticking mostly to the guidelines. Maybe keep an eye on how much mayonnaise you are having with the salad. Can I check your carb intake? Any major carbs like bread, pasta, or rice? Or anything with sugar in it today?"

/-- app.py carb_check_ask submit handler (main_layout lines 376-379):
store the answer, move to final_summary.  The second component lists the
generator invocations made by this block: there are none. -/
def submitCarbCheck (s : SessionState) (carb_answer : String) :
    SessionState × List String :=
  ({ s with carb_response := carb_answer
            conversation_stage := "final_summary" }, [])

/-! ### run_image_analysis (app.py lines 120-159) -/

/-- Observable outcome of run_image_analysis: the new record, the
assessment displayed and spoken (if reached), and the error reported by
the except block (if any). -/
structure ImageResult where
  state : SessionState
  displayed : Option String
  reported : Option PyErr
  deriving Repr, DecidableEq

/-- app.py run_image_analysis: `adapterRes` is the outcome of the body
of the try block up to and including the analyze_meal_photo call (an
exception anywhere in it lands in the except block of line 158, which
only reports).  On a returned assessment string, apostrophes are
stripped (line 144), the text is displayed and spoken (147-150), and
photo_analysis_complete is set (line 155).  No other record field is
written. -/
def run_image_analysis (s : SessionState)
    (adapterRes : Except PyErr String) : ImageResult :=
  match adapterRes with
  | .error e => { state := s, displayed := none, reported := some e }
  | .ok assessment0 =>
      let assessment := stripApos assessment0
      { state := { s with photo_analysis_complete := true }
        displayed := some assessment
        reported := none }

/-! ### final_summary render and reset (app.py lines 383-411, sheets.py 56-70) -/

/-- One spreadsheet row as built by sheets.add_log_entry. -/
structure SheetRow where
  date : String
  assessment : String
  notes : String
  deriving Repr, DecidableEq

/-- sheets.py add_log_entry (lines 56-70): the appended row. -/
def add_log_entry (date assessment notes : String) : SheetRow :=
  { date := date, assessment := assessment, notes := notes }

/-- app.py Start New Session handler (lines 404-411): resets the five
listed fields (detailed_assessment_text is not in the list). -/
def resetSession (s : SessionState) : SessionState :=
  { s with conversation_stage := "start"
           transcription_text := ""
           photo_analysis_complete := false
           detailed_log := ""
           carb_response := "" }

/-- app.py log notes blob (line 398). -/
def log_notes (final_response : String) (s : SessionState) : String :=
  "SUMMARY: " ++ final_response ++ "\nCARB ANSWER: " ++ s.carb_response ++
    "\nINITIAL LOG: " ++ s.transcription_text

/-- Observable outcome of one render of the final_summary branch: the
record afterwards, the rows appended during this render, how many times
the final-synthesis generator was invoked, and an uncaught exception if
the generator threw (line 386 is outside any try block). -/
structure FinalRender where
  state : SessionState
  rows : List SheetRow
  generatorCalls : Nat
  uncaught : Option PyErr
  deriving Repr, DecidableEq

/-- app.py final_summary branch (main_layout lines 383-411), executed on
every script run while conversation_stage is final_summary:
get_carb_check_response is invoked unconditionally (line 386); if the
sheet connection succeeds a row is appended (lines 394-400); sheet
failures only warn; afterwards the reset button (lines 404-411) is
processed. -/
def final_summary_render (s : SessionState) (modelOut : Except PyErr String)
    (sheetOk : Bool) (today : String) (resetClicked : Bool) : FinalRender :=
  match get_carb_check_response modelOut with
  | .error e => { state := s, rows := [], generatorCalls := 1, uncaught := some e }
  | .ok final_response =>
      let rows := if sheetOk then
          [add_log_entry today "Full Conversational Log" (log_notes final_response s)]
        else []
      let s2 := if resetClicked then resetSession s else s
      { state := s2, rows := rows, generatorCalls := 1, uncaught := none }

/-! ### Claim theorems -/

/-- C1 (failing-input evaluation): the final_summary branch runs on every
script render while the stage is final_summary; with the generator and
the sheet available, the first render appends one row and leaves the
stage at final_summary, and a second render without an intervening reset
invokes the final-synthesis generator again and appends a second row, so
re-rendering does produce an additional row and an additional
generation. -/
theorem c1_rerender_appends_second_row :
    let s0 : SessionState :=
      { conversation_stage := "final_summary"
        transcription_text := "ate eggs and toast"
        photo_analysis_complete := false
        detailed_log := ""
        carb_response := "just rice"
        detailed_assessment_text := "" }
    let r1 := final_summary_render s0 (.ok "Well done today") true "2026-10-12" false
    let r2 := final_summary_render r1.state (.ok "Well done today") true "2026-10-12" false
    r1.rows.length = 1 ∧ r1.state.conversation_stage = "final_summary"
      ∧ r2.rows.length = 1 ∧ r1.generatorCalls + r2.generatorCalls = 2 := by
  exact ⟨rfl, rfl, rfl, rfl⟩

/-- C2 (counterexample): in state start, with a successful transcription
and a failing text-generator call, the handler reports an error and the
stage stays start, but transcription_text has already been changed from
the empty string to the transcript: the transition is not
all-or-nothing. -/
theorem c2_counterexample_early_commit :
    (handle_transcription_and_state initState (.ok "ate eggs and toast")
        (fun _ => .error (.other "service unavailable"))).state.transcription_text
      = "ate eggs and toast"
    ∧ (handle_transcription_and_state initState (.ok "ate eggs and toast")
        (fun _ => .error (.other "service unavailable"))).state.conversation_stage = "start"
    ∧ (handle_transcription_and_state initState (.ok "ate eggs and toast")
        (fun _ => .error (.other "service unavailable"))).reported
        = some (.other "service unavailable")
    ∧ initState.transcription_text = "" := by
  exact ⟨rfl, rfl, rfl, rfl⟩

/-- C2 (amended): a transcription failure changes nothing and reports an
error; a generator failure after a successful transcription leaves the
stage and every other field unchanged but keeps the already-stored
transcript in transcription_log and reports an error; full success
commits the transcript and the stripped generated response and advances
the stage to photo_check. -/
theorem c2_amended_transition_effects (s : SessionState) (e : PyErr) (t : String)
    (gen : String → Except PyErr String) :
    (handle_transcription_and_state s (.error e) gen).state = s
    ∧ (handle_transcription_and_state s (.error e) gen).reported = some e
    ∧ (∀ e2, gen t = .error e2 →
        (handle_transcription_and_state s (.ok t) gen).state
            = { s with transcription_text := t }
          ∧ (handle_transcription_and_state s (.ok t) gen).reported = some e2)
    ∧ (∀ r, gen t = .ok r →
        (handle_transcription_and_state s (.ok t) gen).state
            = { s with transcription_text := t
                       detailed_log := stripApos r
                       conversation_stage := "photo_check" }
          ∧ (handle_transcription_and_state s (.ok t) gen).reported = none) := by
  refine ⟨rfl, rfl, ?_, ?_⟩
  · intro e2 h
    constructor <;> simp [handle_transcription_and_state, analyze_initial_log, h]
  · intro r h
    constructor <;> simp [handle_transcription_and_state, analyze_initial_log, h]

/-- C2 (witness): the generator-failure case of the amended theorem at a
concrete input. -/
theorem c2_amended_transition_effects_witness :
    (handle_transcription_and_state initState (.ok "ate eggs and toast")
        (fun _ => .error .unrecognizedFormat)).state
      = { initState with transcription_text := "ate eggs and toast" } :=
  ((c2_amended_transition_effects initState .unrecognizedFormat "ate eggs and toast"
      (fun _ => .error .unrecognizedFormat)).2.2.1 .unrecognizedFormat rfl).1

/-- C3 (counterexample): there is no character cap on transcription_log:
the photo_check audio-detail append grows the stored string beyond any
proposed bound, so no truncate-on-append policy is in force. -/
theorem c3_counterexample_no_cap :
    ¬ ∃ cap : Nat, ∀ (s : SessionState) (t : String),
        ((photoCheckAudioDetail s (.ok t)).1.transcription_text).length ≤ cap := by
  rintro ⟨cap, h⟩
  set t : String := ⟨List.replicate (cap + 1) spC⟩ with ht
  have hne : t ≠ "" := by
    intro heq
    have hlen := congrArg String.length heq
    simp [ht, String.length] at hlen
  have hbound := h initState t
  rw [photoCheckAudioDetail] at hbound
  simp only [if_neg hne] at hbound
  rw [String.length_append, String.length_append] at hbound
  have h1 : (initState.transcription_text).length = 0 := rfl
  have h2 : (" | USER DETAIL: " : String).length = 16 := rfl
  have h3 : t.length = cap + 1 := by simp [ht, String.length]
  omega

/-- C3 (amended): no truncation happens on any write to
transcription_log: the start-stage handler stores the transcript
verbatim (whatever the later generator outcome), and the photo_check
audio-detail path appends the separator and the full new text. -/
theorem c3_amended_no_truncation (s : SessionState) (t : String)
    (gen : String → Except PyErr String) (h : t ≠ "") :
    (handle_transcription_and_state s (.ok t) gen).state.transcription_text = t
    ∧ (photoCheckAudioDetail s (.ok t)).1.transcription_text
        = s.transcription_text ++ " | USER DETAIL: " ++ t := by
  constructor
  · cases hg : analyze_initial_log (gen t) <;>
      simp [handle_transcription_and_state, hg]
  · simp [photoCheckAudioDetail, if_neg h]

/-- C3 (witness): the amended theorem at a concrete input. -/
theorem c3_amended_no_truncation_witness :
    (photoCheckAudioDetail initState (.ok "porridge with seeds")).1.transcription_text
      = "" ++ " | USER DETAIL: " ++ "porridge with seeds" :=
  (c3_amended_no_truncation initState "porridge with seeds"
      (fun _ => .ok "Okay") (by decide)).2

/-- C4 (counterexample): a successful transcription that returns the
empty string does not short-circuit the start-stage transition: the text
generator is invoked with the empty transcript and the stage advances to
photo_check. -/
theorem c4_counterexample_empty_transcript :
    (handle_transcription_and_state initState (.ok "")
        (fun _ => .ok "Okay great")).generatorCalls = [""]
    ∧ (handle_transcription_and_state initState (.ok "")
        (fun _ => .ok "Okay great")).state.conversation_stage = "photo_check" := by
  exact ⟨rfl, rfl⟩

/-- C4 (amended): only a failed transcription short-circuits (state
unchanged, no generator call, error reported); an empty transcript from
a successful transcription does not: the generator is invoked with the
empty string and, when it succeeds, the stage advances to photo_check. -/
theorem c4_amended_only_failure_shortcircuits (s : SessionState) (e : PyErr)
    (gen : String → Except PyErr String) (r : String) (h : gen "" = .ok r) :
    (handle_transcription_and_state s (.error e) gen).state = s
    ∧ (handle_transcription_and_state s (.error e) gen).generatorCalls = []
    ∧ (handle_transcription_and_state s (.error e) gen).reported = some e
    ∧ (handle_transcription_and_state s (.ok "") gen).generatorCalls = [""]
    ∧ (handle_transcription_and_state s (.ok "") gen).state.conversation_stage
        = "photo_check" := by
  refine ⟨rfl, rfl, rfl, ?_, ?_⟩ <;>
    simp [handle_transcription_and_state, analyze_initial_log, h]

/-- C4 (witness): the amended theorem at a concrete input. -/
theorem c4_amended_only_failure_shortcircuits_witness :
    (handle_transcription_and_state initState (.ok "")
        (fun _ => .ok "Okay great")).state.conversation_stage = "photo_check" :=
  (c4_amended_only_failure_shortcircuits initState .unrecognizedFormat
      (fun _ => .ok "Okay great") "Okay great" rfl).2.2.2.2

/-- C5 (counterexample): a successful vision assessment is not folded
into transcription_log: after run_image_analysis on a photo_check record
the log still holds its previous value and does not contain the
assessment, although photo_analysis_complete has been set. -/
theorem c5_counterexample_not_folded :
    let s0 : SessionState :=
      { conversation_stage := "photo_check"
        transcription_text := "ate eggs and toast"
        photo_analysis_complete := false
        detailed_log := ""
        carb_response := ""
        detailed_assessment_text := "" }
    (run_image_analysis s0 (.ok "Meal aligns with the plan")).state.transcription_text
      = "ate eggs and toast"
    ∧ (run_image_analysis s0 (.ok "Meal aligns with the plan")).state.photo_analysis_complete
      = true := by
  exact ⟨rfl, rfl⟩

/-- C5 (amended): when the vision adapter returns an assessment string,
the apostrophe-stripped text is displayed and spoken only; the sole
record change is photo_analysis_complete := true, and transcription_log
is unchanged. -/
theorem c5_amended_display_only (s : SessionState) (a : String) :
    (run_image_analysis s (.ok a)).state = { s with photo_analysis_complete := true }
    ∧ (run_image_analysis s (.ok a)).displayed = some (stripApos a)
    ∧ (run_image_analysis s (.ok a)).state.transcription_text = s.transcription_text := by
  exact ⟨rfl, rfl, rfl⟩

/-- C6: a failed transcription received in state start leaves the whole
record unchanged, so the stage is still start and transcription_log is
still the empty string, and an error is reported. -/
theorem c6_failed_transcription_keeps_start (s : SessionState) (e : PyErr)
    (gen : String → Except PyErr String)
    (h1 : s.conversation_stage = "start") (h2 : s.transcription_text = "") :
    (handle_transcription_and_state s (.error e) gen).state.conversation_stage = "start"
    ∧ (handle_transcription_and_state s (.error e) gen).state.transcription_text = ""
    ∧ (handle_transcription_and_state s (.error e) gen).state = s
    ∧ (handle_transcription_and_state s (.error e) gen).reported = some e := by
  exact ⟨h1, h2, rfl, rfl⟩

/-- C6 (witness): the theorem at the fresh session record. -/
theorem c6_failed_transcription_keeps_start_witness :
    (handle_transcription_and_state initState (.error .unrecognizedFormat)
        (fun _ => .ok "Okay")).state = initState :=
  (c6_failed_transcription_keeps_start initState .unrecognizedFormat
      (fun _ => .ok "Okay") rfl rfl).2.2.1

/-- C7: run_image_analysis never writes the stage, so in photo_check a
photo result of any kind leaves the stage at photo_check; only the
non-empty audio-detail path advances the stage, to carb_check_ask. -/
theorem c7_photo_success_never_advances (s : SessionState)
    (res : Except PyErr String) (t : String)
    (h : s.conversation_stage = "photo_check") (ht : t ≠ "") :
    (run_image_analysis s res).state.conversation_stage = "photo_check"
    ∧ (photoCheckAudioDetail s (.ok t)).1.conversation_stage = "carb_check_ask" := by
  constructor
  · cases res <;> simpa [run_image_analysis] using h
  · simp [photoCheckAudioDetail, if_neg ht]

/-- C7 (witness): the theorem at a concrete photo_check record. -/
theorem c7_photo_success_never_advances_witness :
    (run_image_analysis
        { initState with conversation_stage := "photo_check" }
        (.ok "Meal aligns with the plan")).state.conversation_stage = "photo_check" :=
  (c7_photo_success_never_advances
      { initState with conversation_stage := "photo_check" }
      (.ok "Meal aligns with the plan") "porridge" rfl (by decide)).1

/-- C8: submitting a free-text carb answer stores exactly that answer
into carb_response, advances the stage to final_summary, and performs no
generator call; in particular the answer just rice is stored verbatim. -/
theorem c8_carb_submit_stores_answer (s : SessionState) (ans : String)
    (h : s.conversation_stage = "carb_check_ask") :
    (submitCarbCheck s ans).1.carb_response = ans
    ∧ (submitCarbCheck s ans).1.conversation_stage = "final_summary"
    ∧ (submitCarbCheck s ans).2 = []
    ∧ (submitCarbCheck s "just rice").1.carb_response = "just rice" := by
  exact ⟨rfl, rfl, rfl, rfl⟩

/-- C8 (witness): the theorem at a concrete carb_check_ask record. -/
theorem c8_carb_submit_stores_answer_witness :
    (submitCarbCheck { initState with conversation_stage := "carb_check_ask" }
        "just rice").1.carb_response = "just rice" :=
  (c8_carb_submit_stores_answer
      { initState with conversation_stage := "carb_check_ask" } "just rice" rfl).1

/-- C9: post-processed generator output contains zero apostrophes: both
clean_for_js (the display and speech path) and the per-call-site strip
of generator output remove every apostrophe, whatever the raw output
contained. -/
theorem c9_no_apostrophes_after_cleanup (s : String) :
    aposC ∉ (clean_for_js s).data ∧ aposC ∉ (stripApos s).data := by
  constructor
  · intro hmem
    have h1 := aposC_not_mem_removeApostrophes s.data
    have h2 := aposC_not_mem_escapeBackslashes h1
    have h3 := aposC_not_mem_newlinesToSpaces h2
    have h4 : aposC ∉
        stripHashRuns (newlinesToSpaces (escapeBackslashes (removeApostrophes s.data))) :=
      fun hx => h3 (stripHashRuns_subset _ hx)
    exact h4 (stripFormatChars_subset _ hmem)
  · exact aposC_not_mem_removeApostrophes s.data

/-- C10: photo_analysis_complete is set to true whenever the vision
adapter returns any string at all, including each of its error marker
strings, so the flag does not distinguish a successful analysis from an
adapter failure. -/
theorem c10_flag_set_for_any_adapter_string (s : SessionState) (o : VisionOutcome) :
    (run_image_analysis s (.ok (analyze_meal_photo o))).state.photo_analysis_complete = true
    ∧ analyze_meal_photo .encodeFailed = "Error: Could not process image."
    ∧ analyze_meal_photo .httpError
        = "Error analyzing meal. Check your API key or permissions."
    ∧ analyze_meal_photo .otherError = "An unknown error occurred during analysis." := by
  exact ⟨rfl, rfl, rfl, rfl⟩

end HealthCoach
